import Mathlib

/-!
Shallow embedding of the joystick-to-vehicle control loop of
`src/python_app/js_linux.py` (anki-drive-python-sdk).

The embedding models the consumer loop (`consumer`), the event decoding
(`struct.unpack('IhBB', evbuf)`), the control-state transitions driven by
button and axis events, the periodic integration step that issues speed and
lane commands to the actuator gateway (`car.change_speed`,
`car.change_lane`), and the cancellation flag (`threading.Event`).

Python floats are modelled by `ℚ` (the arithmetic appearing in the loop is
division by 4, by 3 and by 32767 of small quantities); `int(...)` truncation
toward zero is `pyInt`.  Gateway calls are recorded in a trace; exceptions
are modelled by `PyError` and an explicit `TickOutcome`, mirroring the
`except ValueError` handler at the loop boundary (js_linux.py line 300).
-/

namespace JsLinux

/-- Errors that can be raised during one consumer-loop iteration:
`valueError` (the only class the loop's `except ValueError:` handler
catches), `structError` (raised by `struct.unpack` on a buffer whose length
is not 8) and `indexError` (raised by a `button_map[number]` /
`axis_map[number]` lookup out of range). -/
inductive PyError where
  | valueError
  | structError
  | indexError
deriving Repr, DecidableEq

/-- Commands issued to the actuator gateway (the `Overdrive` object `car`):
`change_speed speed accel`, `change_lane speed accel laneOffset`, and the
disconnect performed by `del car`. -/
inductive GatewayCall where
  | change_speed (speed accel : ℤ)
  | change_lane (speed accel lane : ℤ)
  | disconnect
deriving Repr, DecidableEq

/-- The control state owned by the consumer loop: the local variables
`current_speed`, `current_lane`, `accelerate`, `decelerate`, `left`,
`right` of `consumer` in js_linux.py. -/
structure ControlState where
  current_speed : ℚ
  current_lane : ℚ
  accelerate : Bool
  decelerate : Bool
  left : Bool
  right : Bool
deriving Repr, DecidableEq

/-- `max_speed = 3000` (js_linux.py line 195). -/
def max_speed : ℚ := 3000

/-- The consumer's initial control state: `current_speed = 400`,
`current_lane = 0.0`, all four flags `False` (js_linux.py lines 183-199). -/
def initControl : ControlState :=
  { current_speed := 400, current_lane := 0, accelerate := false,
    decelerate := false, left := false, right := false }

/-- Python `int(q)` on a float: truncation toward zero, modelled on `ℚ`. -/
def pyInt (q : ℚ) : ℤ := Int.tdiv q.num (q.den : ℤ)

/-- Reassemble the native-byte-order signed 16-bit field of
`struct.unpack`: a raw value in `[0, 65536)` read as two's complement. -/
def toInt16 (raw : ℕ) : ℤ := if raw < 32768 then (raw : ℤ) else (raw : ℤ) - 65536

/-- `struct.unpack('IhBB', evbuf)` (js_linux.py line 208): an 8-byte record
decodes to `(time_val, value, type, number)` — unsigned 32-bit time, signed
16-bit value, unsigned 8-bit type bitmask, unsigned 8-bit index, in native
(little-endian) byte order.  Any other length raises `struct.error`. -/
def unpack_IhBB (evbuf : List ℕ) : Except PyError (ℕ × ℤ × ℕ × ℕ) :=
  match evbuf with
  | [b0, b1, b2, b3, b4, b5, b6, b7] =>
      .ok (b0 + 256 * b1 + 65536 * b2 + 16777216 * b3, toInt16 (b4 + 256 * b5), b6, b7)
  | _ => .error .structError

/-- How one loop iteration ends: `normal` (fall through to the next
iteration), `exited` (the `return` of the exit-button branch, after
`event.set()`), or `raised e` (an exception `e` escaping the tick body). -/
inductive TickOutcome where
  | normal
  | exited
  | raised (e : PyError)
deriving Repr, DecidableEq

/-- The button block of the consumer (js_linux.py lines 213-243):
`button = button_map[number]`; on press (`value ≠ 0`) `thumb` sets
accelerate, `thumb2` sets decelerate, `base4` disconnects the car, sets the
event and returns; on release both `thumb` and `thumb2` set decelerate. -/
def buttonBlock (button_map : List String) (value : ℤ) (number : ℕ)
    (s : ControlState) : ControlState × List GatewayCall × TickOutcome :=
  match button_map[number]? with
  | none => (s, [], .raised .indexError)
  | some button =>
    if button ≠ "" then
      if value ≠ 0 then
        if button = "thumb" then
          ({ s with accelerate := true, decelerate := false }, [], .normal)
        else if button = "thumb2" then
          ({ s with accelerate := false, decelerate := true }, [], .normal)
        else if button = "base4" then
          (s, [.disconnect], .exited)
        else (s, [], .normal)
      else
        if button = "thumb" then
          ({ s with accelerate := false, decelerate := true }, [], .normal)
        else if button = "thumb2" then
          ({ s with accelerate := false, decelerate := true }, [], .normal)
        else (s, [], .normal)
    else (s, [], .normal)

/-- The axis block of the consumer (js_linux.py lines 245-269):
`axis = axis_map[number]`, `fvalue = value / 32767.0`; axis `x` at full
deflection latches `left`/`right`; axis `y` maps `fvalue ≥ 0.9` to
decelerate, `fvalue ≤ -0.9` to accelerate, and any other value to
decelerate. -/
def axisBlock (axis_map : List String) (value : ℤ) (number : ℕ)
    (s : ControlState) : ControlState × TickOutcome :=
  match axis_map[number]? with
  | none => (s, .raised .indexError)
  | some axis =>
    if axis ≠ "" then
      let fvalue : ℚ := (value : ℚ) / 32767
      if axis = "x" ∧ fvalue ≤ -1 then
        ({ s with left := true, right := false }, .normal)
      else if axis = "x" ∧ fvalue ≥ 1 then
        ({ s with right := true, left := false }, .normal)
      else if axis = "y" then
        (if fvalue ≥ 9 / 10 then { s with accelerate := false, decelerate := true }
         else if fvalue ≤ -(9 / 10) then { s with accelerate := true, decelerate := false }
         else { s with accelerate := false, decelerate := true }, .normal)
      else (s, .normal)
    else (s, .normal)

/-- The `if accelerate:` block of the integration step (js_linux.py lines
274-279), acting on the pair of current state and calls made so far this
iteration: `current_speed += (max_speed − current_speed) / 4`, clamped to
`max_speed`, then `car.change_speed(int(current_speed), 2000)`. -/
def accelPhase (p : ControlState × List GatewayCall) :
    ControlState × List GatewayCall :=
  if p.1.accelerate then
    let sp := p.1.current_speed + (max_speed - p.1.current_speed) / 4
    let sp := if sp ≥ max_speed then max_speed else sp
    ({ p.1 with current_speed := sp },
      p.2 ++ [GatewayCall.change_speed (pyInt sp) 2000])
  else p

/-- The `if decelerate:` block (js_linux.py lines 281-286):
`current_speed -= current_speed / 3`, snapped to 0 at or below 200, then
`car.change_speed(int(current_speed), 2000)`. -/
def decelPhase (p : ControlState × List GatewayCall) :
    ControlState × List GatewayCall :=
  if p.1.decelerate then
    let sp := p.1.current_speed - p.1.current_speed / 3
    let sp := if sp ≤ 200 then 0 else sp
    ({ p.1 with current_speed := sp },
      p.2 ++ [GatewayCall.change_speed (pyInt sp) 2000])
  else p

/-- The `if left:` block (js_linux.py lines 288-292): while
`current_lane ≥ -100`, `current_lane -= 30.0` and
`car.change_lane(int(current_speed), 2000, int(current_lane))`. -/
def leftPhase (p : ControlState × List GatewayCall) :
    ControlState × List GatewayCall :=
  if p.1.left then
    if p.1.current_lane ≥ -100 then
      let ln := p.1.current_lane - 30
      ({ p.1 with current_lane := ln },
        p.2 ++ [GatewayCall.change_lane (pyInt p.1.current_speed) 2000 (pyInt ln)])
    else p
  else p

/-- The `if right:` block (js_linux.py lines 294-298): while
`current_lane ≤ 100`, `current_lane += 30.0` and
`car.change_lane(int(current_speed), 2000, int(current_lane))`. -/
def rightPhase (p : ControlState × List GatewayCall) :
    ControlState × List GatewayCall :=
  if p.1.right then
    if p.1.current_lane ≤ 100 then
      let ln := p.1.current_lane + 30
      ({ p.1 with current_lane := ln },
        p.2 ++ [GatewayCall.change_lane (pyInt p.1.current_speed) 2000 (pyInt ln)])
    else p
  else p

/-- The periodic integration step of the consumer (js_linux.py lines
274-298), run once per iteration: the four `if` blocks in source order,
starting from the current state with no calls made this iteration. -/
def integrate (s : ControlState) : ControlState × List GatewayCall :=
  rightPhase (leftPhase (decelPhase (accelPhase (s, []))))

/-- The guarded button block: `if type & 0x01:` (js_linux.py line 213). -/
def step1 (button_map : List String) (value : ℤ) (ty number : ℕ)
    (s : ControlState) : ControlState × List GatewayCall × TickOutcome :=
  if ty.land 0x01 ≠ 0 then buttonBlock button_map value number s
  else (s, [], .normal)

/-- The guarded axis block: `if type & 0x02:` (js_linux.py line 245). -/
def step2 (axis_map : List String) (value : ℤ) (ty number : ℕ)
    (s : ControlState) : ControlState × TickOutcome :=
  if ty.land 0x02 ≠ 0 then axisBlock axis_map value number s
  else (s, .normal)

/-- Decode one raw record and apply the button (`type & 0x01`) and axis
(`type & 0x02`) blocks of the consumer (js_linux.py lines 208-269); the
exit branch and a raised exception short-circuit the rest of the
iteration. -/
def applyEvent (button_map axis_map : List String) (evbuf : List ℕ)
    (s : ControlState) : ControlState × List GatewayCall × TickOutcome :=
  match unpack_IhBB evbuf with
  | .error e => (s, [], .raised e)
  | .ok (_time_val, value, ty, number) =>
    match step1 button_map value ty number s with
    | (s1, calls1, .normal) =>
      match step2 axis_map value ty number s1 with
      | (s2, .normal) => (s2, calls1, .normal)
      | (s2, o2) => (s2, calls1, o2)
    | r1 => r1

/-- One iteration body of the consumer while-loop (js_linux.py lines
202-298), between the `event.is_set()` check and the `except` clause.
`item = some evbuf` models a non-empty queue delivering `evbuf`; `none`
models the empty-queue branch (`time.sleep(0.2)`).  A non-empty record is
decoded and applied; unless the exit branch returned or an exception was
raised, the integration step then runs. -/
def tick (button_map axis_map : List String) (item : Option (List ℕ))
    (s : ControlState) : ControlState × List GatewayCall × TickOutcome :=
  match item with
  | some evbuf =>
    if evbuf = [] then
      let p := integrate s
      (p.1, p.2, .normal)
    else
      match applyEvent button_map axis_map evbuf s with
      | (s2, calls, .normal) =>
        let p := integrate s2
        (p.1, calls ++ p.2, .normal)
      | r => r
  | none =>
    let p := integrate s
    (p.1, p.2, .normal)

/-- The consumer-loop-level state: the control state, the shared
cancellation flag (`threading.Event`), whether the consumer has left its
loop, and the uncaught exception that terminated it, if any. -/
structure LoopState where
  ctrl : ControlState
  eventSet : Bool
  finished : Bool
  crashed : Option PyError
deriving Repr, DecidableEq

/-- The consumer's loop state at startup: initial control state,
cancellation flag unset, loop running. -/
def initLoop : LoopState :=
  { ctrl := initControl, eventSet := false, finished := false, crashed := none }

/-- One stimulus to the running system: the queue delivering a raw record,
the queue being empty for the iteration, or a SIGINT handled by
`sig_handler` (which calls `event.set()`). -/
inductive LoopInput where
  | queueItem (evbuf : List ℕ)
  | queueEmpty
  | sigint
deriving Repr, DecidableEq

/-- One step of the consumer loop under a stimulus.  `sigint` sets the
cancellation flag (js_linux.py lines 166-170).  Otherwise, if the loop has
already returned or the flag is set (`while not event.is_set()`), nothing
happens.  Otherwise the tick body runs; a `ValueError` is caught by the
`except ValueError:` handler (line 300) and the loop continues; any other
exception propagates out of `consumer` and the loop terminates; the exit
branch sets the flag and returns. -/
def loopStep (button_map axis_map : List String) (inp : LoopInput)
    (ls : LoopState) : LoopState × List GatewayCall :=
  match inp with
  | .sigint => ({ ls with eventSet := true }, [])
  | _ =>
    if ls.finished ∨ ls.eventSet then (ls, [])
    else
      let item := match inp with
        | .queueItem evbuf => some evbuf
        | _ => none
      match tick button_map axis_map item ls.ctrl with
      | (c, calls, .normal) => ({ ls with ctrl := c }, calls)
      | (c, calls, .exited) =>
        ({ ctrl := c, eventSet := true, finished := true, crashed := none }, calls)
      | (c, calls, .raised e) =>
        if e = PyError.valueError then ({ ls with ctrl := c }, calls)
        else ({ ls with ctrl := c, finished := true, crashed := some e }, calls)

/-- Run the consumer loop over a sequence of stimuli, collecting the
gateway calls issued. -/
def runLoop (button_map axis_map : List String) (inps : List LoopInput)
    (ls : LoopState) : LoopState × List GatewayCall :=
  match inps with
  | [] => (ls, [])
  | i :: rest =>
    let r1 := loopStep button_map axis_map i ls
    let r2 := runLoop button_map axis_map rest r1.1
    (r2.1, r1.2 ++ r2.2)

/-- A concrete button map as built from `button_names` for a standard
joystick reporting codes 0x120-0x129 (trigger .. base4): `base4`, the exit
button, sits at index 9. -/
def stdButtonMap : List String :=
  ["trigger", "thumb", "thumb2", "top", "top2", "pinkie", "base", "base2",
   "base3", "base4"]

/-- A concrete axis map as built from `axis_names` for a device reporting
axis codes 0x00 and 0x01: `x` at index 0 and `y` at index 1. -/
def stdAxisMap : List String := ["x", "y"]

end JsLinux

/-! ### Frame lemmas for the four integration phases -/

namespace JsLinux

@[simp] theorem accelPhase_lane (p : ControlState × List GatewayCall) :
    (accelPhase p).1.current_lane = p.1.current_lane := by
  unfold accelPhase; split_ifs <;> rfl

@[simp] theorem accelPhase_decelerate (p : ControlState × List GatewayCall) :
    (accelPhase p).1.decelerate = p.1.decelerate := by
  unfold accelPhase; split_ifs <;> rfl

@[simp] theorem accelPhase_left (p : ControlState × List GatewayCall) :
    (accelPhase p).1.left = p.1.left := by
  unfold accelPhase; split_ifs <;> rfl

@[simp] theorem accelPhase_right (p : ControlState × List GatewayCall) :
    (accelPhase p).1.right = p.1.right := by
  unfold accelPhase; split_ifs <;> rfl

@[simp] theorem decelPhase_lane (p : ControlState × List GatewayCall) :
    (decelPhase p).1.current_lane = p.1.current_lane := by
  unfold decelPhase; split_ifs <;> rfl

@[simp] theorem decelPhase_left (p : ControlState × List GatewayCall) :
    (decelPhase p).1.left = p.1.left := by
  unfold decelPhase; split_ifs <;> rfl

@[simp] theorem decelPhase_right (p : ControlState × List GatewayCall) :
    (decelPhase p).1.right = p.1.right := by
  unfold decelPhase; split_ifs <;> rfl

@[simp] theorem leftPhase_speed (p : ControlState × List GatewayCall) :
    (leftPhase p).1.current_speed = p.1.current_speed := by
  unfold leftPhase; split_ifs <;> rfl

@[simp] theorem leftPhase_right (p : ControlState × List GatewayCall) :
    (leftPhase p).1.right = p.1.right := by
  unfold leftPhase; split_ifs <;> rfl

@[simp] theorem rightPhase_speed (p : ControlState × List GatewayCall) :
    (rightPhase p).1.current_speed = p.1.current_speed := by
  unfold rightPhase; split_ifs <;> rfl

/-- The lane after the left block. -/
theorem leftPhase_lane (p : ControlState × List GatewayCall) :
    (leftPhase p).1.current_lane =
      (if p.1.left = true ∧ p.1.current_lane ≥ -100 then p.1.current_lane - 30
       else p.1.current_lane) := by
  unfold leftPhase; split_ifs <;> simp_all

/-- The lane after the right block. -/
theorem rightPhase_lane (p : ControlState × List GatewayCall) :
    (rightPhase p).1.current_lane =
      (if p.1.right = true ∧ p.1.current_lane ≤ 100 then p.1.current_lane + 30
       else p.1.current_lane) := by
  unfold rightPhase; split_ifs <;> simp_all

/-- Calls already made are preserved by the left block. -/
theorem mem_leftPhase_calls {c : GatewayCall} {p : ControlState × List GatewayCall}
    (h : c ∈ p.2) : c ∈ (leftPhase p).2 := by
  unfold leftPhase; split_ifs <;> simp [h]

/-- Calls already made are preserved by the right block. -/
theorem mem_rightPhase_calls {c : GatewayCall} {p : ControlState × List GatewayCall}
    (h : c ∈ p.2) : c ∈ (rightPhase p).2 := by
  unfold rightPhase; split_ifs <;> simp [h]

/-- Any call appended by the accelerate block is a speed command. -/
theorem mem_accelPhase_calls_inv {c : GatewayCall}
    {p : ControlState × List GatewayCall} (h : c ∈ (accelPhase p).2) :
    c ∈ p.2 ∨ ∃ n, c = GatewayCall.change_speed n 2000 := by
  unfold accelPhase at h
  split_ifs at h <;> simp_all <;> tauto

/-- Any call appended by the decelerate block is a speed command. -/
theorem mem_decelPhase_calls_inv {c : GatewayCall}
    {p : ControlState × List GatewayCall} (h : c ∈ (decelPhase p).2) :
    c ∈ p.2 ∨ ∃ n, c = GatewayCall.change_speed n 2000 := by
  unfold decelPhase at h
  split_ifs at h <;> simp_all <;> tauto

/-- The speed after one integration step depends only on the
accelerate/decelerate flags: the lane blocks do not touch
`current_speed`. -/
theorem integrate_speed (s : ControlState) :
    (integrate s).1.current_speed =
      (let sp1 := if s.accelerate then
          (if s.current_speed + (max_speed - s.current_speed) / 4 ≥ max_speed
           then max_speed
           else s.current_speed + (max_speed - s.current_speed) / 4)
        else s.current_speed
       if s.decelerate then (if sp1 - sp1 / 3 ≤ 200 then 0 else sp1 - sp1 / 3)
       else sp1) := by
  cases ha : s.accelerate <;> cases hd : s.decelerate <;>
    simp [integrate, accelPhase, decelPhase, ha, hd]

/-- The lane after one integration step depends only on the `left`/`right`
flags and the incoming lane: the speed blocks do not touch
`current_lane`. -/
theorem integrate_lane (s : ControlState) :
    (integrate s).1.current_lane =
      (let l1 := if s.left = true ∧ s.current_lane ≥ -100 then s.current_lane - 30
        else s.current_lane
       if s.right = true ∧ l1 ≤ 100 then l1 + 30 else l1) := by
  show (rightPhase (leftPhase (decelPhase (accelPhase (s, []))))).1.current_lane = _
  rw [rightPhase_lane, leftPhase_lane]
  simp

end JsLinux

namespace JsLinux

/-- Calls already made are preserved by the decelerate block. -/
theorem mem_decelPhase_calls {c : GatewayCall} {p : ControlState × List GatewayCall}
    (h : c ∈ p.2) : c ∈ (decelPhase p).2 := by
  unfold decelPhase; split_ifs <;> simp [h]

/-- With decelerate set, the integration step records a speed command
carrying the final speed. -/
theorem integrate_calls_decel (s : ControlState)
    (ha : s.accelerate = false) (hd : s.decelerate = true) :
    GatewayCall.change_speed (pyInt ((integrate s).1.current_speed)) 2000
      ∈ (integrate s).2 := by
  unfold integrate
  simp only [rightPhase_speed, leftPhase_speed]
  apply mem_rightPhase_calls
  apply mem_leftPhase_calls
  simp [accelPhase, decelPhase, ha, hd]

/-- With accelerate set, the integration step records a speed command
carrying the clamped accelerated speed. -/
theorem integrate_calls_accel (s : ControlState) (ha : s.accelerate = true) :
    GatewayCall.change_speed
        (pyInt (if s.current_speed + (max_speed - s.current_speed) / 4 ≥ max_speed
                then max_speed
                else s.current_speed + (max_speed - s.current_speed) / 4)) 2000
      ∈ (integrate s).2 := by
  unfold integrate
  apply mem_rightPhase_calls
  apply mem_leftPhase_calls
  apply mem_decelPhase_calls
  simp [accelPhase, ha]

/-- Claim C3: one acceleration integration step (accelerate=true,
decelerate=false) on a speed `s` with `0 ≤ s ≤ max_speed` yields
`s + (max_speed − s)/4` clamped to `max_speed`, is monotonically
non-decreasing, never overshoots `max_speed`, and applied at
`s = max_speed` yields exactly `max_speed`. -/
theorem C3_accelerate_step (s : ControlState)
    (ha : s.accelerate = true) (hd : s.decelerate = false)
    (h0 : 0 ≤ s.current_speed) (h1 : s.current_speed ≤ max_speed) :
    ((integrate s).1.current_speed =
        (if s.current_speed + (max_speed - s.current_speed) / 4 ≥ max_speed
         then max_speed
         else s.current_speed + (max_speed - s.current_speed) / 4))
    ∧ s.current_speed ≤ (integrate s).1.current_speed
    ∧ (integrate s).1.current_speed ≤ max_speed
    ∧ (s.current_speed = max_speed → (integrate s).1.current_speed = max_speed) := by
  rw [integrate_speed]
  simp only [ha, hd, if_true, Bool.false_eq_true, if_false]
  constructor
  · trivial
  · unfold max_speed at *
    split_ifs with h
    · refine ⟨h1, le_refl _, fun _ => rfl⟩
    · refine ⟨by linarith, by linarith, fun he => by rw [he] at h; linarith⟩

/-- Witness for C3 at the concrete state `initControl` with
accelerate=true (speed 400): the step yields 1050. -/
theorem C3_accelerate_step_witness :
    ((integrate { initControl with accelerate := true }).1.current_speed =
        (if (400 : ℚ) + (max_speed - 400) / 4 ≥ max_speed
         then max_speed else 400 + (max_speed - 400) / 4))
    ∧ (400 : ℚ) ≤ (integrate { initControl with accelerate := true }).1.current_speed
    ∧ (integrate { initControl with accelerate := true }).1.current_speed ≤ max_speed
    ∧ ((400 : ℚ) = max_speed →
        (integrate { initControl with accelerate := true }).1.current_speed = max_speed) :=
  C3_accelerate_step { initControl with accelerate := true }
    rfl rfl (by norm_num [initControl]) (by norm_num [initControl, max_speed])

/-- Claim C4: one deceleration integration step (decelerate=true,
accelerate=false) on a speed `s ≥ 0` yields `s − s/3`, except that a result
at or below 200 snaps to exactly 0; the result never exceeds `s`; and a
speed command carrying the new value is sent. -/
theorem C4_decelerate_step (s : ControlState)
    (hd : s.decelerate = true) (ha : s.accelerate = false)
    (h0 : 0 ≤ s.current_speed) :
    ((integrate s).1.current_speed =
        (if s.current_speed - s.current_speed / 3 ≤ 200 then 0
         else s.current_speed - s.current_speed / 3))
    ∧ (integrate s).1.current_speed ≤ s.current_speed
    ∧ GatewayCall.change_speed (pyInt ((integrate s).1.current_speed)) 2000
        ∈ (integrate s).2 := by
  refine ⟨?_, ?_, integrate_calls_decel s ha hd⟩
  · rw [integrate_speed]
    simp only [ha, hd, Bool.false_eq_true, if_false, if_true]
  · rw [integrate_speed]
    simp only [ha, hd, Bool.false_eq_true, if_false, if_true]
    split_ifs with h
    · exact h0
    · linarith

/-- The control state with decelerate set at speed 50 (Scenario B's
starting point). -/
def decel50 : ControlState := { initControl with decelerate := true, current_speed := 50 }

/-- Witness for C4 at speed 50 with decelerate set: the step snaps to 0,
0 ≤ 50, and `change_speed 0 2000` is recorded. -/
theorem C4_decelerate_step_witness :
    ((integrate decel50).1.current_speed =
        (if decel50.current_speed - decel50.current_speed / 3 ≤ 200 then 0
         else decel50.current_speed - decel50.current_speed / 3))
    ∧ (integrate decel50).1.current_speed ≤ decel50.current_speed
    ∧ GatewayCall.change_speed (pyInt ((integrate decel50).1.current_speed)) 2000
        ∈ (integrate decel50).2 :=
  C4_decelerate_step decel50 rfl rfl (by norm_num [decel50, initControl])

/-- Claim C1: for a decoded axis event dispatched to axis name `y`, with
normalized value `v = value/32767`: `v ≥ 0.9` leaves decelerate set and
accelerate clear; `v ≤ −0.9` leaves accelerate set and decelerate clear;
every other value leaves decelerate set and accelerate clear (center
defaults to decelerate). -/
theorem C1_axis_y (axis_map : List String) (value : ℤ) (number : ℕ)
    (s : ControlState) (hy : axis_map[number]? = some "y") :
    (((value : ℚ) / 32767 ≥ 9 / 10 →
        (axisBlock axis_map value number s).1.decelerate = true ∧
        (axisBlock axis_map value number s).1.accelerate = false)
     ∧ ((value : ℚ) / 32767 ≤ -(9 / 10) →
        (axisBlock axis_map value number s).1.accelerate = true ∧
        (axisBlock axis_map value number s).1.decelerate = false)
     ∧ (¬ (value : ℚ) / 32767 ≥ 9 / 10 → ¬ (value : ℚ) / 32767 ≤ -(9 / 10) →
        (axisBlock axis_map value number s).1.decelerate = true ∧
        (axisBlock axis_map value number s).1.accelerate = false)) := by
  simp only [axisBlock, hy]
  split_ifs with h1 h2 h3 h4 h5 <;> (simp_all; try linarith)

/-- Witness for C1 on the standard axis map: a `y` event (index 1) at raw
value 32767 (v = 1 ≥ 0.9) sets decelerate. -/
theorem C1_axis_y_witness :
    ((32767 : ℚ) / 32767 ≥ 9 / 10 →
        (axisBlock stdAxisMap 32767 1 initControl).1.decelerate = true ∧
        (axisBlock stdAxisMap 32767 1 initControl).1.accelerate = false)
     ∧ ((32767 : ℚ) / 32767 ≤ -(9 / 10) →
        (axisBlock stdAxisMap 32767 1 initControl).1.accelerate = true ∧
        (axisBlock stdAxisMap 32767 1 initControl).1.decelerate = false)
     ∧ (¬ (32767 : ℚ) / 32767 ≥ 9 / 10 → ¬ (32767 : ℚ) / 32767 ≤ -(9 / 10) →
        (axisBlock stdAxisMap 32767 1 initControl).1.decelerate = true ∧
        (axisBlock stdAxisMap 32767 1 initControl).1.accelerate = false) :=
  C1_axis_y stdAxisMap 32767 1 initControl (by decide)

/-- Claim C8: for a decoded axis event dispatched to axis name `x`, a
normalized value at or below −1.0 latches left (and clears right); at or
above +1.0 latches right (and clears left); any other value leaves the
whole control state unchanged, so the last commanded direction is
retained. -/
theorem C8_axis_x (axis_map : List String) (value : ℤ) (number : ℕ)
    (s : ControlState) (hx : axis_map[number]? = some "x") :
    (((value : ℚ) / 32767 ≤ -1 →
        (axisBlock axis_map value number s).1.left = true ∧
        (axisBlock axis_map value number s).1.right = false)
     ∧ ((value : ℚ) / 32767 ≥ 1 →
        (axisBlock axis_map value number s).1.right = true ∧
        (axisBlock axis_map value number s).1.left = false)
     ∧ (¬ (value : ℚ) / 32767 ≤ -1 → ¬ (value : ℚ) / 32767 ≥ 1 →
        (axisBlock axis_map value number s).1 = s)) := by
  simp only [axisBlock, hx]
  split_ifs with h1 h2 h3 <;> (simp_all; try linarith)

/-- Witness for C8 on the standard axis map: an `x` event (index 0) at raw
value −32767 (v = −1) latches left and clears right. -/
theorem C8_axis_x_witness :
    (((-32767 : ℤ) : ℚ) / 32767 ≤ -1 →
        (axisBlock stdAxisMap (-32767) 0 initControl).1.left = true ∧
        (axisBlock stdAxisMap (-32767) 0 initControl).1.right = false)
     ∧ (((-32767 : ℤ) : ℚ) / 32767 ≥ 1 →
        (axisBlock stdAxisMap (-32767) 0 initControl).1.right = true ∧
        (axisBlock stdAxisMap (-32767) 0 initControl).1.left = false)
     ∧ (¬ ((-32767 : ℤ) : ℚ) / 32767 ≤ -1 → ¬ ((-32767 : ℤ) : ℚ) / 32767 ≥ 1 →
        (axisBlock stdAxisMap (-32767) 0 initControl).1 = initControl) :=
  C8_axis_x stdAxisMap (-32767) 0 initControl (by decide)

end JsLinux

namespace JsLinux

/-- The left block is the identity when the left flag is clear. -/
theorem leftPhase_id {p : ControlState × List GatewayCall}
    (h : p.1.left = false) : leftPhase p = p := by
  simp [leftPhase, h]

/-- The right block is the identity when the right flag is clear. -/
theorem rightPhase_id {p : ControlState × List GatewayCall}
    (h : p.1.right = false) : rightPhase p = p := by
  simp [rightPhase, h]

/-- The left block is the identity when the lane is below the −100
guard. -/
theorem leftPhase_skip {p : ControlState × List GatewayCall}
    (h : ¬ p.1.current_lane ≥ -100) : leftPhase p = p := by
  cases hl : p.1.left <;> simp [leftPhase, hl, h]

/-- The right block is the identity when the lane is above the +100
guard. -/
theorem rightPhase_skip {p : ControlState × List GatewayCall}
    (h : ¬ p.1.current_lane ≤ 100) : rightPhase p = p := by
  cases hr : p.1.right <;> simp [rightPhase, hr, h]

/-- When the left block fires it records a lane command at the current
speed with the new lane. -/
theorem leftPhase_calls_pos {p : ControlState × List GatewayCall}
    (h : p.1.left = true) (hb : p.1.current_lane ≥ -100) :
    GatewayCall.change_lane (pyInt p.1.current_speed) 2000
      (pyInt (p.1.current_lane - 30)) ∈ (leftPhase p).2 := by
  simp [leftPhase, h, hb]

/-- When the right block fires it records a lane command at the current
speed with the new lane. -/
theorem rightPhase_calls_pos {p : ControlState × List GatewayCall}
    (h : p.1.right = true) (hb : p.1.current_lane ≤ 100) :
    GatewayCall.change_lane (pyInt p.1.current_speed) 2000
      (pyInt (p.1.current_lane + 30)) ∈ (rightPhase p).2 := by
  simp [rightPhase, h, hb]

/-- Claim C5: on an integration tick with left set (and right clear), while
`current_lane ≥ −100` the lane decreases by 30 and a lane-change command at
the current speed with the new lane is sent; once `current_lane < −100`
the decrement is no longer applied and no lane command is sent.
Symmetrically for right with the `≤ 100` guard. -/
theorem C5_lane_step (s : ControlState) :
    (s.left = true → s.right = false →
      ((s.current_lane ≥ -100 →
          (integrate s).1.current_lane = s.current_lane - 30 ∧
          GatewayCall.change_lane (pyInt ((integrate s).1.current_speed)) 2000
            (pyInt (s.current_lane - 30)) ∈ (integrate s).2)
       ∧ (s.current_lane < -100 →
          (integrate s).1.current_lane = s.current_lane ∧
          ∀ sp ac ln, GatewayCall.change_lane sp ac ln ∉ (integrate s).2)))
    ∧ (s.right = true → s.left = false →
      ((s.current_lane ≤ 100 →
          (integrate s).1.current_lane = s.current_lane + 30 ∧
          GatewayCall.change_lane (pyInt ((integrate s).1.current_speed)) 2000
            (pyInt (s.current_lane + 30)) ∈ (integrate s).2)
       ∧ (s.current_lane > 100 →
          (integrate s).1.current_lane = s.current_lane ∧
          ∀ sp ac ln, GatewayCall.change_lane sp ac ln ∉ (integrate s).2))) := by
  constructor
  · intro hl hr
    constructor
    · intro hlane
      constructor
      · rw [integrate_lane]
        simp [hl, hr, hlane]
      · show _ ∈ (rightPhase (leftPhase (decelPhase (accelPhase (s, []))))).2
        rw [show (integrate s).1.current_speed =
            (decelPhase (accelPhase (s, []))).1.current_speed by
          unfold integrate; rw [rightPhase_speed, leftPhase_speed]]
        apply mem_rightPhase_calls
        have h1 : (decelPhase (accelPhase (s, []))).1.left = true := by simp [hl]
        have h2 : (decelPhase (accelPhase (s, []))).1.current_lane ≥ -100 := by
          simpa using hlane
        simpa using leftPhase_calls_pos h1 h2
    · intro hlane
      have hskipL : leftPhase (decelPhase (accelPhase (s, []))) =
          decelPhase (accelPhase (s, [])) :=
        leftPhase_skip (by simpa using not_le.mpr hlane)
      have hidR : rightPhase (decelPhase (accelPhase (s, []))) =
          decelPhase (accelPhase (s, [])) :=
        rightPhase_id (by simpa using hr)
      constructor
      · show (rightPhase (leftPhase (decelPhase (accelPhase (s, []))))).1.current_lane = _
        rw [hskipL, hidR]
        simp
      · intro sp ac ln hmem
        rw [show integrate s = decelPhase (accelPhase (s, [])) by
          unfold integrate; rw [hskipL, hidR]] at hmem
        rcases mem_decelPhase_calls_inv hmem with h | ⟨n, hn⟩
        · rcases mem_accelPhase_calls_inv h with h' | ⟨n, hn⟩
          · simp at h'
          · exact GatewayCall.noConfusion hn
        · exact GatewayCall.noConfusion hn
  · intro hr hl
    constructor
    · intro hlane
      have hidL : leftPhase (decelPhase (accelPhase (s, []))) =
          decelPhase (accelPhase (s, [])) :=
        leftPhase_id (by simpa using hl)
      constructor
      · rw [integrate_lane]
        simp [hl, hr, hlane]
      · show _ ∈ (rightPhase (leftPhase (decelPhase (accelPhase (s, []))))).2
        rw [show (integrate s).1.current_speed =
            (decelPhase (accelPhase (s, []))).1.current_speed by
          unfold integrate; rw [rightPhase_speed, leftPhase_speed]]
        rw [hidL]
        have h1 : (decelPhase (accelPhase (s, []))).1.right = true := by simp [hr]
        have h2 : (decelPhase (accelPhase (s, []))).1.current_lane ≤ 100 := by
          simpa using hlane
        simpa using rightPhase_calls_pos h1 h2
    · intro hlane
      have hidL : leftPhase (decelPhase (accelPhase (s, []))) =
          decelPhase (accelPhase (s, [])) :=
        leftPhase_id (by simpa using hl)
      have hskipR : rightPhase (decelPhase (accelPhase (s, []))) =
          decelPhase (accelPhase (s, [])) :=
        rightPhase_skip (by simpa using not_le.mpr hlane)
      constructor
      · show (rightPhase (leftPhase (decelPhase (accelPhase (s, []))))).1.current_lane = _
        rw [hidL, hskipR]
        simp
      · intro sp ac ln hmem
        rw [show integrate s = decelPhase (accelPhase (s, [])) by
          unfold integrate; rw [hidL, hskipR]] at hmem
        rcases mem_decelPhase_calls_inv hmem with h | ⟨n, hn⟩
        · rcases mem_accelPhase_calls_inv h with h' | ⟨n, hn⟩
          · simp at h'
          · exact GatewayCall.noConfusion hn
        · exact GatewayCall.noConfusion hn

/-- The control state with the left flag latched at lane 0. -/
def leftLatched : ControlState := { initControl with left := true }

/-- The control state with the right flag latched at lane 0. -/
def rightLatched : ControlState := { initControl with right := true }

/-- Witness for C5 at lane 0: a left tick moves the lane to −30 and sends
the lane command; a right tick moves it to +30 and sends the command. -/
theorem C5_lane_step_witness :
    ((integrate leftLatched).1.current_lane = leftLatched.current_lane - 30 ∧
      GatewayCall.change_lane (pyInt ((integrate leftLatched).1.current_speed)) 2000
        (pyInt (leftLatched.current_lane - 30)) ∈ (integrate leftLatched).2)
    ∧ ((integrate rightLatched).1.current_lane = rightLatched.current_lane + 30 ∧
      GatewayCall.change_lane (pyInt ((integrate rightLatched).1.current_speed)) 2000
        (pyInt (rightLatched.current_lane + 30)) ∈ (integrate rightLatched).2) :=
  ⟨((C5_lane_step leftLatched).1 rfl rfl).1 (by norm_num [leftLatched, initControl]),
   ((C5_lane_step rightLatched).2 rfl rfl).1 (by norm_num [rightLatched, initControl])⟩

end JsLinux

namespace JsLinux

/-- Claim C7: pressing the accelerate button (`thumb`, value ≠ 0) sets
accelerate and clears decelerate, and the next integration tick issues a
speed command with `previous + (max_speed − previous)/4`; releasing it
(value = 0) sets decelerate, not coast; for the decelerate button
(`thumb2`) both press and release set decelerate and clear accelerate. -/
theorem C7_throttle_buttons (button_map : List String) (value : ℤ)
    (n1 n2 : ℕ) (s : ControlState)
    (h1 : button_map[n1]? = some "thumb")
    (h2 : button_map[n2]? = some "thumb2")
    (hv : value ≠ 0)
    (hs : 0 ≤ s.current_speed) (hmax : s.current_speed ≤ max_speed) :
    ((buttonBlock button_map value n1 s).1.accelerate = true ∧
     (buttonBlock button_map value n1 s).1.decelerate = false ∧
     GatewayCall.change_speed
        (pyInt (s.current_speed + (max_speed - s.current_speed) / 4)) 2000
       ∈ (integrate (buttonBlock button_map value n1 s).1).2)
    ∧ ((buttonBlock button_map 0 n1 s).1.accelerate = false ∧
       (buttonBlock button_map 0 n1 s).1.decelerate = true)
    ∧ ((buttonBlock button_map value n2 s).1.accelerate = false ∧
       (buttonBlock button_map value n2 s).1.decelerate = true)
    ∧ ((buttonBlock button_map 0 n2 s).1.accelerate = false ∧
       (buttonBlock button_map 0 n2 s).1.decelerate = true) := by
  have hB : buttonBlock button_map value n1 s =
      ({ s with accelerate := true, decelerate := false }, [], .normal) := by
    simp [buttonBlock, h1, hv]
  refine ⟨⟨by rw [hB], by rw [hB], ?_⟩, ⟨?_, ?_⟩, ⟨?_, ?_⟩, ⟨?_, ?_⟩⟩
  · rw [hB]
    have hm := integrate_calls_accel
      { s with accelerate := true, decelerate := false } rfl
    have hsp : ({ s with accelerate := true, decelerate := false } : ControlState).current_speed = s.current_speed := rfl
    simp only [hsp] at hm
    have heq : (if s.current_speed + (max_speed - s.current_speed) / 4 ≥ max_speed
        then max_speed
        else s.current_speed + (max_speed - s.current_speed) / 4) =
        s.current_speed + (max_speed - s.current_speed) / 4 := by
      split_ifs with h
      · unfold max_speed at *
        linarith
      · rfl
    rw [heq] at hm
    exact hm
  · simp [buttonBlock, h1]
  · simp [buttonBlock, h1]
  · simp [buttonBlock, h2, hv]
  · simp [buttonBlock, h2, hv]
  · simp [buttonBlock, h2]
  · simp [buttonBlock, h2]

/-- Witness for C7 on the standard button map: pressing `thumb` (index 1)
at `initControl` latches accelerate and the tick records
`change_speed 1050 2000`. -/
theorem C7_throttle_buttons_witness :
    (buttonBlock stdButtonMap 1 1 initControl).1.accelerate = true ∧
    (buttonBlock stdButtonMap 1 1 initControl).1.decelerate = false ∧
    GatewayCall.change_speed
        (pyInt (initControl.current_speed +
          (max_speed - initControl.current_speed) / 4)) 2000
      ∈ (integrate (buttonBlock stdButtonMap 1 1 initControl).1).2 :=
  (C7_throttle_buttons stdButtonMap 1 1 2 initControl rfl rfl (by decide)
    (by norm_num [initControl]) (by norm_num [initControl, max_speed])).1

/-- Claim C6: the first press of the exit button (`base4`) moves the
cancellation flag from unset to set, records the gateway disconnect and
terminates the consumer loop at once; once set — whether by the exit
button or by the SIGINT handler — the flag is never cleared by any step;
and a repeated press after the first is a no-op. -/
theorem C6_exit_button (bm am : List String) (evbuf : List ℕ)
    (t : ℕ) (v : ℤ) (ty n : ℕ)
    (hne : evbuf ≠ [])
    (hu : unpack_IhBB evbuf = .ok (t, v, ty, n))
    (hty : ty.land 0x01 ≠ 0)
    (hb : bm[n]? = some "base4")
    (hv : v ≠ 0) :
    (∀ ls : LoopState, ls.eventSet = false → ls.finished = false →
      loopStep bm am (.queueItem evbuf) ls =
        ({ ctrl := ls.ctrl, eventSet := true, finished := true, crashed := none },
          [GatewayCall.disconnect]))
    ∧ (∀ (ls : LoopState) (inp : LoopInput), ls.eventSet = true →
        (loopStep bm am inp ls).1.eventSet = true)
    ∧ (∀ ls : LoopState, ls.eventSet = true →
        loopStep bm am (.queueItem evbuf) ls = (ls, [])) := by
  refine ⟨?_, ?_, ?_⟩
  · intro ls he hf
    have hBB : buttonBlock bm v n ls.ctrl = (ls.ctrl, [.disconnect], .exited) := by
      simp [buttonBlock, hb, hv]
    have hAE : applyEvent bm am evbuf ls.ctrl = (ls.ctrl, [.disconnect], .exited) := by
      unfold applyEvent
      rw [hu]
      simp [step1, hty, hBB]
    have hT : tick bm am (some evbuf) ls.ctrl = (ls.ctrl, [.disconnect], .exited) := by
      simp [tick, hne, hAE]
    simp [loopStep, he, hf, hT]
  · intro ls inp he
    cases inp <;> simp [loopStep, he]
  · intro ls he
    simp [loopStep, he]

/-- Witness for C6: on the standard maps, the record
`[0,0,0,0, 1,0, 1, 9]` (a `base4` press) makes the first press set the
flag, disconnect and finish, and a second identical press is a no-op. -/
theorem C6_exit_button_witness :
    (loopStep stdButtonMap stdAxisMap (.queueItem [0, 0, 0, 0, 1, 0, 1, 9]) initLoop =
      ({ ctrl := initControl, eventSet := true, finished := true, crashed := none },
        [GatewayCall.disconnect]))
    ∧ ((loopStep stdButtonMap stdAxisMap .sigint
        { ctrl := initControl, eventSet := true, finished := true,
          crashed := none : LoopState }).1.eventSet = true)
    ∧ (loopStep stdButtonMap stdAxisMap (.queueItem [0, 0, 0, 0, 1, 0, 1, 9])
        { ctrl := initControl, eventSet := true, finished := true, crashed := none } =
       ({ ctrl := initControl, eventSet := true, finished := true, crashed := none }, [])) := by
  have h := C6_exit_button stdButtonMap stdAxisMap [0, 0, 0, 0, 1, 0, 1, 9]
    0 1 1 9 (by decide) rfl (by decide) (by decide) (by decide)
  exact ⟨h.1 initLoop rfl rfl, h.2.1 _ .sigint rfl, h.2.2 _ rfl⟩

/-- Claim C2 evaluated on the failing input: a malformed 7-byte record
delivered to the consumer is NOT caught at the loop boundary — the
handler catches only `ValueError`, so the `struct.error` raised by
`unpack` propagates and terminates the consumer loop (finished with an
uncaught `structError`, cancellation flag still unset). -/
theorem C2_uncaught_decode_error_stops_loop :
    loopStep stdButtonMap stdAxisMap (.queueItem [0, 0, 0, 0, 0, 0, 0]) initLoop =
      ({ ctrl := initControl, eventSet := false, finished := true,
         crashed := some PyError.structError }, []) := by
  rfl

/-- Scenario B's loop state: consumer running with decelerate latched and
`current_speed = 50`. -/
def scenarioB : LoopState := { initLoop with ctrl := decel50 }

/-- The stopped control state reached by Scenario B: decelerate latched,
speed snapped to 0. -/
def decel0 : ControlState := { decel50 with current_speed := 0 }

/-- `int(0) = 0`. -/
theorem pyInt_zero : pyInt 0 = 0 := by
  simp [pyInt]

/-- One idle deceleration tick from speed 50 snaps to 0 and records
`change_speed 0 2000`. -/
theorem integrate_decel50 :
    integrate decel50 = (decel0, [GatewayCall.change_speed 0 2000]) := by
  have h : (50 : ℚ) - 50 / 3 ≤ 200 := by norm_num
  simp [integrate, accelPhase, decelPhase, leftPhase, rightPhase,
    decel50, decel0, initControl, h, pyInt_zero]

/-- One idle deceleration tick from speed 0 stays at 0 and records
`change_speed 0 2000`. -/
theorem integrate_decel0 :
    integrate decel0 = (decel0, [GatewayCall.change_speed 0 2000]) := by
  have h : (0 : ℚ) - 0 / 3 ≤ 200 := by norm_num
  simp [integrate, accelPhase, decelPhase, leftPhase, rightPhase,
    decel50, decel0, initControl, h, pyInt_zero]

/-- Claim C9 (Scenario B): with the queue empty for consecutive ticks,
decelerate set and speed 50, after 2 ticks the speed has been snapped
exactly to 0 and a `change_speed 0 2000` command has been issued. -/
theorem C9_scenario_b :
    (runLoop stdButtonMap stdAxisMap [.queueEmpty, .queueEmpty]
        scenarioB).1.ctrl.current_speed = 0
    ∧ GatewayCall.change_speed 0 2000 ∈
        (runLoop stdButtonMap stdAxisMap [.queueEmpty, .queueEmpty] scenarioB).2 := by
  have h1 : loopStep stdButtonMap stdAxisMap .queueEmpty scenarioB =
      ({ scenarioB with ctrl := decel0 }, [GatewayCall.change_speed 0 2000]) := by
    simp [loopStep, tick, scenarioB, initLoop, integrate_decel50]
  have h2 : loopStep stdButtonMap stdAxisMap .queueEmpty
      { scenarioB with ctrl := decel0 } =
      ({ scenarioB with ctrl := decel0 }, [GatewayCall.change_speed 0 2000]) := by
    simp [loopStep, tick, scenarioB, initLoop, integrate_decel0]
  have hr : runLoop stdButtonMap stdAxisMap [.queueEmpty, .queueEmpty] scenarioB =
      ({ scenarioB with ctrl := decel0 },
        [GatewayCall.change_speed 0 2000, GatewayCall.change_speed 0 2000]) := by
    simp [runLoop, h1, h2]
  rw [hr]
  constructor
  · simp [decel0, decel50, initControl]
  · simp

end JsLinux

namespace JsLinux

/-- The button block never changes the lane. -/
@[simp] theorem buttonBlock_lane (button_map : List String) (value : ℤ)
    (number : ℕ) (s : ControlState) :
    ((buttonBlock button_map value number s).1).current_lane = s.current_lane := by
  cases h : button_map[number]? <;>
    simp only [buttonBlock, h] <;> (try split_ifs) <;> rfl

/-- The axis block never changes the lane. -/
@[simp] theorem axisBlock_lane (axis_map : List String) (value : ℤ)
    (number : ℕ) (s : ControlState) :
    ((axisBlock axis_map value number s).1).current_lane = s.current_lane := by
  cases h : axis_map[number]? <;>
    simp only [axisBlock, h] <;> (try split_ifs) <;> rfl

/-- The guarded button block never changes the lane. -/
theorem step1_lane (bm : List String) (v : ℤ) (ty n : ℕ) (s : ControlState) :
    (step1 bm v ty n s).1.current_lane = s.current_lane := by
  unfold step1
  split_ifs
  · exact buttonBlock_lane bm v n s
  · rfl

/-- The guarded axis block never changes the lane. -/
theorem step2_lane (am : List String) (v : ℤ) (ty n : ℕ) (s : ControlState) :
    (step2 am v ty n s).1.current_lane = s.current_lane := by
  unfold step2
  split_ifs
  · exact axisBlock_lane am v n s
  · rfl

/-- Event processing (decode, button block, axis block) never changes the
lane. -/
theorem applyEvent_lane (bm am : List String) (evbuf : List ℕ)
    (s : ControlState) :
    (applyEvent bm am evbuf s).1.current_lane = s.current_lane := by
  unfold applyEvent
  cases hu : unpack_IhBB evbuf with
  | error e => rfl
  | ok val =>
    obtain ⟨t, v, ty, n⟩ := val
    dsimp only
    rcases hX : step1 bm v ty n s with ⟨s1, calls1, o1⟩
    have hs1 : s1.current_lane = s.current_lane := by
      have h := congrArg (fun r => r.1.current_lane) hX
      dsimp at h
      rw [← h]
      exact step1_lane bm v ty n s
    cases o1 with
    | normal =>
      dsimp only
      rcases hY : step2 am v ty n s1 with ⟨s2, o2⟩
      have hs2 : s2.current_lane = s1.current_lane := by
        have h := congrArg (fun r => r.1.current_lane) hY
        dsimp at h
        rw [← h]
        exact step2_lane am v ty n s1
      cases o2 <;> simp [hs2, hs1]
    | exited => simp [hs1]
    | raised e => simp [hs1]

/-- The integration step keeps the lane inside `[-130, 130]`: the ±30
steps fire only inside the `[-100, 100]` guards. -/
theorem integrate_lane_bound (s : ControlState)
    (h1 : -130 ≤ s.current_lane) (h2 : s.current_lane ≤ 130) :
    -130 ≤ (integrate s).1.current_lane ∧ (integrate s).1.current_lane ≤ 130 := by
  rw [integrate_lane]
  dsimp only
  split_ifs <;> constructor <;> linarith

/-- One tick body keeps the lane inside `[-130, 130]`. -/
theorem tick_lane_bound (bm am : List String) (item : Option (List ℕ))
    (s : ControlState)
    (h1 : -130 ≤ s.current_lane) (h2 : s.current_lane ≤ 130) :
    -130 ≤ (tick bm am item s).1.current_lane ∧
    (tick bm am item s).1.current_lane ≤ 130 := by
  unfold tick
  cases item with
  | none => simpa using integrate_lane_bound s h1 h2
  | some evbuf =>
    dsimp only
    split_ifs with he
    · simpa using integrate_lane_bound s h1 h2
    · rcases hX : applyEvent bm am evbuf s with ⟨s2, calls, o⟩
      have hs2 : s2.current_lane = s.current_lane := by
        have h := congrArg (fun r => r.1.current_lane) hX
        dsimp at h
        rw [← h, applyEvent_lane]
      cases o with
      | normal =>
        have hb := integrate_lane_bound s2 (by rw [hs2]; exact h1)
          (by rw [hs2]; exact h2)
        simpa using hb
      | exited =>
        dsimp
        rw [hs2]
        exact ⟨h1, h2⟩
      | raised e =>
        dsimp
        rw [hs2]
        exact ⟨h1, h2⟩

/-- One loop step keeps the lane inside `[-130, 130]`. -/
theorem loopStep_lane_bound (bm am : List String) (inp : LoopInput)
    (ls : LoopState)
    (h1 : -130 ≤ ls.ctrl.current_lane) (h2 : ls.ctrl.current_lane ≤ 130) :
    -130 ≤ (loopStep bm am inp ls).1.ctrl.current_lane ∧
    (loopStep bm am inp ls).1.ctrl.current_lane ≤ 130 := by
  cases inp with
  | sigint => simpa [loopStep] using ⟨h1, h2⟩
  | queueEmpty =>
    unfold loopStep
    dsimp only
    split_ifs with hif
    · exact ⟨h1, h2⟩
    · rcases hT : tick bm am none ls.ctrl with ⟨c, calls, o⟩
      have hb := tick_lane_bound bm am none ls.ctrl h1 h2
      rw [hT] at hb
      dsimp at hb
      cases o with
      | normal => exact hb
      | exited => exact hb
      | raised e =>
        dsimp
        split_ifs <;> exact hb
  | queueItem evbuf =>
    unfold loopStep
    dsimp only
    split_ifs with hif
    · exact ⟨h1, h2⟩
    · rcases hT : tick bm am (some evbuf) ls.ctrl with ⟨c, calls, o⟩
      have hb := tick_lane_bound bm am (some evbuf) ls.ctrl h1 h2
      rw [hT] at hb
      dsimp at hb
      cases o with
      | normal => exact hb
      | exited => exact hb
      | raised e =>
        dsimp
        split_ifs <;> exact hb

/-- Running the loop from a state with the lane inside `[-130, 130]`
keeps it there. -/
theorem runLoop_lane_bound (bm am : List String) (inps : List LoopInput) :
    ∀ ls : LoopState, -130 ≤ ls.ctrl.current_lane → ls.ctrl.current_lane ≤ 130 →
      -130 ≤ (runLoop bm am inps ls).1.ctrl.current_lane ∧
      (runLoop bm am inps ls).1.ctrl.current_lane ≤ 130 := by
  induction inps with
  | nil => intro ls h1 h2; exact ⟨h1, h2⟩
  | cons i rest ih =>
    intro ls h1 h2
    have hstep := loopStep_lane_bound bm am i ls h1 h2
    simpa [runLoop] using ih (loopStep bm am i ls).1 hstep.1 hstep.2

/-- Claim C10: from the initial state (lane 0), after every sequence of
stimuli the lane lies in `[-130, 130]`; a left step still fires at lane
−100 and takes it to −130, and symmetrically a right step at +100 takes
it to +130; no reachable state lies beyond ±130. -/
theorem C10_lane_invariant (bm am : List String) :
    (∀ inps : List LoopInput,
      -130 ≤ (runLoop bm am inps initLoop).1.ctrl.current_lane ∧
      (runLoop bm am inps initLoop).1.ctrl.current_lane ≤ 130)
    ∧ (∀ s : ControlState, s.left = true → s.right = false →
        s.current_lane = -100 → (integrate s).1.current_lane = -130)
    ∧ (∀ s : ControlState, s.right = true → s.left = false →
        s.current_lane = 100 → (integrate s).1.current_lane = 130) := by
  refine ⟨?_, ?_, ?_⟩
  · intro inps
    exact runLoop_lane_bound bm am inps initLoop
      (by norm_num [initLoop, initControl]) (by norm_num [initLoop, initControl])
  · intro s hl hr hlane
    rw [integrate_lane]
    simp [hl, hr, hlane]
    norm_num
  · intro s hr hl hlane
    rw [integrate_lane]
    simp [hl, hr, hlane]
    norm_num

/-- A control state latched left at the −100 guard boundary. -/
def laneAtLeftBound : ControlState :=
  { initControl with left := true, current_lane := -100 }

/-- A control state latched right at the +100 guard boundary. -/
def laneAtRightBound : ControlState :=
  { initControl with right := true, current_lane := 100 }

/-- Witness for C10: one idle tick from the initial state stays in
bounds; a left step at −100 reaches −130 and a right step at +100
reaches +130. -/
theorem C10_lane_invariant_witness :
    (-130 ≤ (runLoop stdButtonMap stdAxisMap [.queueEmpty]
        initLoop).1.ctrl.current_lane ∧
      (runLoop stdButtonMap stdAxisMap [.queueEmpty]
        initLoop).1.ctrl.current_lane ≤ 130)
    ∧ (integrate laneAtLeftBound).1.current_lane = -130
    ∧ (integrate laneAtRightBound).1.current_lane = 130 :=
  ⟨(C10_lane_invariant stdButtonMap stdAxisMap).1 [.queueEmpty],
   (C10_lane_invariant stdButtonMap stdAxisMap).2.1 laneAtLeftBound rfl rfl
     (by norm_num [laneAtLeftBound, initControl]),
   (C10_lane_invariant stdButtonMap stdAxisMap).2.2 laneAtRightBound rfl rfl
     (by norm_num [laneAtRightBound, initControl])⟩

end JsLinux
